import Mathlib

/-!
Shallow embedding of the monster-jobs MCP server core
(src/server.js; the variant in src/unnamed/part_005 differs only where noted).

The embedding covers:
* the per-card listing extraction loop of searchJobs
  (src/server.js lines 154-189, src/unnamed/part_005 lines 123-178),
* buildSearchUrl together with the URLSearchParams form-urlencoding
  (src/server.js lines 358-373),
* the module-level result store (jobCache / jobIndex / jobIdIndex, JS Map
  semantics) and the caching-plus-eviction step of searchJobs
  (src/server.js lines 193-204),
* getJobDetails: reference dispatch, the not-found response, the detail-page
  extraction and both failure branches (src/server.js lines 248-356).

JS Maps are modelled as insertion-ordered association lists; the network is
modelled as a function from the attempted URL to a fetch outcome.
-/

namespace MonsterJobs

/-- Kernel-evaluable test that one character list starts with another
(the built-in String.startsWith is opaque to the kernel). -/
def charsStartWith : List Char → List Char → Bool
  | _, [] => true
  | [], _ :: _ => false
  | c :: cs, p :: ps => c = p && charsStartWith cs ps

/-- Semantics of `s.startsWith pre` over the underlying character lists. -/
def strStartsWith (s pre : String) : Bool :=
  charsStartWith s.data pre.data

/-- Semantics of the JS idiom `x?.f?.trim() || dflt`: an absent value
(`none`, i.e. a selector miss) or an empty string are falsy and yield the
default, anything else is returned unchanged. -/
def jsOr (o : Option String) (d : String) : String :=
  match o with
  | some s => if s = "" then d else s
  | none => d

/-- Semantics of a JS truthiness test on an optional string: empty strings
and absent values both count as falsy. -/
def truthyStr (o : Option String) : Option String :=
  match o with
  | some s => if s = "" then none else some s
  | none => none

/-- Character class `[a-f0-9-]` of the job-id regex in searchJobs
(src/server.js line 165). -/
def isIdChar (c : Char) : Bool :=
  ('a' ≤ c && c ≤ 'f') || c.isDigit || c = '-'

/-- Attempt to match the regex `--([a-f0-9-]+)\?` at the head of the
character list: two dashes, a non-empty run of id characters, then a
literal question mark; returns the captured run. -/
def idMatchHere : List Char → Option (List Char)
  | '-' :: '-' :: rest =>
      let run := rest.takeWhile isIdChar
      if run ≠ [] ∧ (rest.dropWhile isIdChar).head? = some '?' then some run
      else none
  | _ => none

/-- Left-to-right scan for the first position where the job-id regex
matches, as the JS regex engine does. -/
def idMatchScan : List Char → Option (List Char)
  | [] => none
  | c :: rest =>
      match idMatchHere (c :: rest) with
      | some r => some r
      | none => idMatchScan rest

/-- The expression `jobUrl.match(REGEX)?.[1]` from searchJobs
(src/server.js line 165), REGEX being the id pattern above: first capture
of the pattern, if any. -/
def matchJobId (s : String) : Option String :=
  (idMatchScan s.data).map (fun l => String.mk l)

/-- Raw data of one listing card: each field is the trimmed text (or
attribute value) the corresponding selector yields, `none` on a selector
miss.  Mirrors the selectors queried per card in searchJobs
(src/server.js lines 157-170). -/
structure CardFields where
  titleText : Option String
  href : Option String
  dataJobId : Option String
  company : Option String
  location : Option String
  recency : Option String
  salary : Option String
deriving DecidableEq

/-- One cached job record, as pushed by the card loop of searchJobs
(src/server.js lines 178-188). -/
structure Job where
  jobNumber : Nat
  title : String
  company : String
  location : String
  salary : String
  recency : String
  description : String
  jobId : String
  jobUrl : String
deriving DecidableEq

/-- Body of the card loop of searchJobs (src/server.js lines 156-188) for
the card at 0-based index `i`: field defaults via the `|| dflt` chains, the
protocol fix for scheme-relative links, the job-id fallback chain and the
synthesized description.  (The part_005 variant applies the protocol fix
after the id match instead of before; the id pattern contains no slash, so
the two orders extract the same id.) -/
def parseCard (c : CardFields) (i : Nat) : Job :=
  let title := jsOr c.titleText "N/A"
  let rawUrl := jsOr c.href ""
  let jobUrl := if strStartsWith rawUrl "//" then "https:" ++ rawUrl else rawUrl
  let jobId :=
    match truthyStr c.dataJobId with
    | some s => s
    | none => (matchJobId jobUrl).getD ""
  let company := jsOr c.company "N/A"
  let location := jsOr c.location "N/A"
  let recency := jsOr c.recency "N/A"
  let salary := jsOr c.salary "Not specified"
  let description :=
    company ++ " is hiring for a " ++ title ++ " position in " ++ location ++ "."
  let description :=
    if salary ≠ "Not specified" then description ++ " Salary: " ++ salary ++ "."
    else description
  let description := description ++ " Posted: " ++ recency ++ "."
  { jobNumber := i + 1, title := title, company := company, location := location,
    salary := salary, recency := recency, description := description,
    jobId := jobId, jobUrl := jobUrl }

/-- The card loop of searchJobs over the candidate cards, carrying the
0-based card index `i`.  A card is `none` when processing it throws, which
the loop's try/catch turns into a skip (src/unnamed/part_005 lines
127-175); a `some` card always yields a record, every field falling back
to its default (src/server.js has no skip path: cheerio selector misses
only trigger the defaults). -/
def extractGo : List (Option CardFields) → Nat → List Job
  | [], _ => []
  | none :: rest, i => extractGo rest (i + 1)
  | some c :: rest, i => parseCard c i :: extractGo rest (i + 1)

/-- The listing extraction of searchJobs: iterate the first `limit`
candidate cards (`.slice(0, limit)` in src/server.js line 155,
`i < Math.min(jobCards.length, maxResults)` in part_005 line 127). -/
def extractJobs (cards : List (Option CardFields)) (limit : Nat) : List Job :=
  extractGo (cards.take limit) 0

/-- Uppercase hexadecimal digit, for percent-escapes. -/
def hexDigit (n : Nat) : Char :=
  if n < 10 then Char.ofNat (48 + n) else Char.ofNat (55 + n)

/-- UTF-8 bytes of one character, as used by URLSearchParams when it
percent-escapes a non-urlencoded-safe character. -/
def utf8Bytes (c : Char) : List Nat :=
  let n := c.toNat
  if n < 128 then [n]
  else if n < 2048 then [192 + n / 64, 128 + n % 64]
  else if n < 65536 then [224 + n / 4096, 128 + n / 64 % 64, 128 + n % 64]
  else [240 + n / 262144, 128 + n / 4096 % 64, 128 + n / 64 % 64, 128 + n % 64]

/-- Percent-escape of one byte. -/
def percentByte (b : Nat) : String :=
  String.mk ['%', hexDigit (b / 16), hexDigit (b % 16)]

/-- Characters URLSearchParams serializes verbatim
(application/x-www-form-urlencoded set: alphanumerics and asterisk,
hyphen, period, underscore). -/
def isFormSafe (c : Char) : Bool :=
  c.isAlphanum || c = '*' || c = '-' || c = '.' || c = '_'

/-- Form-urlencoding of one character: safe characters verbatim, space as
a plus sign, everything else percent-escaped bytewise. -/
def formEncodeChar (c : Char) : String :=
  if isFormSafe c then String.mk [c]
  else if c = ' ' then "+"
  else String.join ((utf8Bytes c).map percentByte)

/-- The `URLSearchParams` form-urlencoding of a full string. -/
def formEncode (s : String) : String :=
  String.join (s.data.map formEncodeChar)

/-- The key/value pairs buildSearchUrl puts into its URLSearchParams
(src/server.js lines 360-371): the five fixed-order base parameters, then
`recency` appended only when truthy and different from the default
`last+week`. -/
def buildSearchUrlParams (query location : String) (radius : Int)
    (recency : String) : List (String × String) :=
  let params := [("q", query), ("where", location), ("page", "1"),
    ("rd", toString radius), ("so", "m.h.sh")]
  if recency ≠ "" ∧ recency ≠ "last+week" then params ++ [("recency", recency)]
  else params

/-- Semantics of `URLSearchParams.toString()`: the pairs form-urlencoded and joined
with ampersands. -/
def serializeParams : List (String × String) → String
  | [] => ""
  | p :: rest =>
      rest.foldl (fun acc q => acc ++ "&" ++ formEncode q.1 ++ "=" ++ formEncode q.2)
        (formEncode p.1 ++ "=" ++ formEncode p.2)

/-- buildSearchUrl (src/server.js lines 358-373): base address, a question
mark, then the serialized parameters. -/
def buildSearchUrl (query location : String) (radius : Int)
    (recency : String) : String :=
  "https://www.monster.com/jobs/search" ++ "?" ++
    serializeParams (buildSearchUrlParams query location radius recency)

/-- Split a character list on a separator character (kernel-evaluable
counterpart of String.splitOn for one-character separators), used to take
a built URL apart when stating properties about it. -/
def splitOnCharAux (sep : Char) : List Char → List Char → List (List Char)
  | [], acc => [acc.reverse]
  | c :: rest, acc =>
      if c = sep then acc.reverse :: splitOnCharAux sep rest []
      else splitOnCharAux sep rest (c :: acc)

/-- String-level single-character split. -/
def splitOnChar (sep : Char) (s : String) : List String :=
  (splitOnCharAux sep s.data []).map (fun l => String.mk l)

/-- The `key=value` components of the query part of a URL. -/
def urlQueryComponents (url : String) : List String :=
  splitOnChar '&' ((splitOnChar '?' url).getD 1 "")

/-- The recency enumeration of the SearchParameters data model. -/
inductive Recency where
  | today
  | last_2_days
  | last_week
  | last_2_weeks
deriving DecidableEq

/-- The wire string of each recency value, as listed in the tool schema
(src/server.js line 70). -/
def recencyStr : Recency → String
  | .today => "today"
  | .last_2_days => "last+2+days"
  | .last_week => "last+week"
  | .last_2_weeks => "last+2+weeks"

/-- JS `Map.set`: update in place when the key exists (keeping its
insertion position), else append.  Maps are insertion-ordered association
lists with unique keys. -/
def mapSet {β : Type} (m : List (String × β)) (k : String) (v : β) :
    List (String × β) :=
  if m.any (fun p => decide (p.1 = k)) then
    m.map (fun p => if p.1 = k then (k, v) else p)
  else m ++ [(k, v)]

/-- The `mapSet` operation for natural-number keys (the jobNumber index). -/
def mapSetN {β : Type} (m : List (Nat × β)) (k : Nat) (v : β) :
    List (Nat × β) :=
  if m.any (fun p => decide (p.1 = k)) then
    m.map (fun p => if p.1 = k then (k, v) else p)
  else m ++ [(k, v)]

/-- JS `Map.get`: the value stored under the key, if any. -/
def mapGet {β : Type} (m : List (String × β)) (k : String) : Option β :=
  (m.find? (fun p => decide (p.1 = k))).map (fun p => p.2)

/-- The `mapGet` operation for natural-number keys. -/
def mapGetN {β : Type} (m : List (Nat × β)) (k : Nat) : Option β :=
  (m.find? (fun p => decide (p.1 = k))).map (fun p => p.2)

/-- JS `Map.delete`: drop the entry with the key, if present. -/
def mapDelete {β : Type} (m : List (String × β)) (k : String) :
    List (String × β) :=
  m.eraseP (fun p => decide (p.1 = k))

/-- The module-level mutable state of the server (src/server.js lines
41-43): jobCache maps searchId to that search session's job list, jobIndex
maps job_number to a job, jobIdIndex maps job_id to a job. -/
structure StoreState where
  jobCache : List (String × List Job)
  jobIndex : List (Nat × Job)
  jobIdIndex : List (String × Job)
deriving DecidableEq

/-- The three empty Maps the server starts with. -/
def emptyStore : StoreState := ⟨[], [], []⟩

/-- The caching step of searchJobs (src/server.js lines 193-204): store
the session under its searchId, index every job by jobNumber and — when
the jobId is truthy — by jobId, then, if the cache now holds more than 10
sessions, delete the first-inserted key.  Nothing is removed from either
index. -/
def cacheJobs (st : StoreState) (searchId : String) (jobs : List Job) :
    StoreState :=
  let cache := mapSet st.jobCache searchId jobs
  let jIdx := jobs.foldl (fun m j => mapSetN m j.jobNumber j) st.jobIndex
  let idIdx := jobs.foldl
    (fun m j => if j.jobId ≠ "" then mapSet m j.jobId j else m) st.jobIdIndex
  let cache :=
    if 10 < cache.length then
      match cache.head? with
      | some p => mapDelete cache p.1
      | none => cache
    else cache
  ⟨cache, jIdx, idIdx⟩

/-- One entry of the `available_jobs` list of the not-found response
(src/server.js lines 269-273). -/
structure AvailJob where
  jobNumber : Nat
  title : String
  company : String
deriving DecidableEq

/-- Semantics of `Array.from(jobCache.values()).flat().map(...)`: every cached job, in
session insertion order, projected to jobNumber/title/company. -/
def availableJobs (st : StoreState) : List AvailJob :=
  ((st.jobCache.map (fun p => p.2)).flatten).map
    (fun j => ⟨j.jobNumber, j.title, j.company⟩)

/-- Raw data of the detail-page container: each field is the trimmed text
the corresponding selector chain yields, `none` on a miss; `fullText` is
the container's full text (src/server.js lines 301-317). -/
structure ContainerFields where
  h1 : Option String
  companyName : Option String
  description : Option String
  requirements : Option String
  salary : Option String
  location : Option String
  jobType : Option String
  fullText : String
deriving DecidableEq

/-- A fetched detail page: its container element, when the selector finds
one. -/
structure DetailPage where
  container : Option ContainerFields
deriving DecidableEq

/-- Outcome of one network fetch: a parsed page, a non-success HTTP
status (which the code turns into a thrown error), or a thrown network or
timeout error with its message. -/
inductive FetchOutcome where
  | ok (page : DetailPage)
  | badStatus (code : Nat) (text : String)
  | netError (msg : String)
deriving DecidableEq

/-- The `jobDetails` object built from the container (src/server.js lines
301-318): every field falls back to its sentinel default, `fullContent`
is the first 2000 characters of the container text. -/
structure JobDetailsR where
  title : String
  company : String
  location : String
  salary : String
  jobType : String
  description : String
  requirements : String
  fullContent : String
deriving DecidableEq

/-- Field extraction of getJobDetails from a found container. -/
def extractDetails (cf : ContainerFields) : JobDetailsR :=
  { title := jsOr cf.h1 "N/A",
    company := jsOr cf.companyName "N/A",
    location := jsOr cf.location "Location not specified",
    salary := jsOr cf.salary "Salary not specified",
    jobType := jsOr cf.jobType "Job type not specified",
    description := jsOr cf.description "Job description not available",
    requirements := jsOr cf.requirements "Requirements not specified",
    fullContent := String.mk (cf.fullText.data.take 2000) }

/-- The `jobInfo` block of the detail failure response (src/server.js
lines 345-350): the already-known summary fields of the target job. -/
structure JobInfo where
  jobNumber : Nat
  title : String
  company : String
  url : String
deriving DecidableEq

/-- The four responses getJobDetails can produce: the typed not-found
response with the currently available jobs, the bare error object of the
container-not-found branch (src/server.js line 298), the success response,
and the catch-branch failure carrying the fixed details string and the
target job's summary fields. -/
inductive DetailResult where
  | notFound (available : List AvailJob)
  | rawError (error : String)
  | success (jobNumber : Nat) (jobId : String) (url : String)
      (details : JobDetailsR)
  | failure (error : String) (details : String) (jobInfo : JobInfo)
deriving DecidableEq

/-- The `else if (job_id)` arm of the reference dispatch (src/server.js
line 257): consult the jobIdIndex only for a truthy job_id. -/
def lookupById (st : StoreState) (jid : Option String) : Option Job :=
  match jid with
  | some s => if s ≠ "" then mapGet st.jobIdIndex s else none
  | none => none

/-- The reference dispatch of getJobDetails (src/server.js lines 252-258):
a truthy job_number (present and non-zero) consults the jobNumber index,
otherwise a truthy job_id consults the jobId index, otherwise no target is
found. -/
def lookupTarget (st : StoreState) (jn : Option Nat) (jid : Option String) :
    Option Job :=
  match jn with
  | some n => if n ≠ 0 then mapGetN st.jobIndex n else lookupById st jid
  | none => lookupById st jid

/-- getJobDetails (src/server.js lines 248-356).  The network is a
function from the attempted URL to a fetch outcome; the store is threaded
through unchanged by every branch, mirroring the absence of any store
mutation in the source.  A missing target yields the not-found response; a
fetched page without the container yields the bare error object; a found
container yields the success response; a bad status or thrown fetch error
yields the failure response carrying the target job's summary fields. -/
def getJobDetails (st : StoreState) (jn : Option Nat) (jid : Option String)
    (world : String → FetchOutcome) : DetailResult × StoreState :=
  match lookupTarget st jn jid with
  | none => (.notFound (availableJobs st), st)
  | some job =>
    match world job.jobUrl with
    | .ok page =>
      match page.container with
      | none => (.rawError "Job details container not found", st)
      | some cf =>
          (.success job.jobNumber job.jobId job.jobUrl (extractDetails cf), st)
    | .badStatus c t =>
        (.failure ("Failed to fetch job details: " ++ toString c ++ " " ++ t)
          "Failed to retrieve job details"
          ⟨job.jobNumber, job.title, job.company, job.jobUrl⟩, st)
    | .netError m =>
        (.failure m "Failed to retrieve job details"
          ⟨job.jobNumber, job.title, job.company, job.jobUrl⟩, st)

/-- Outcome of fetching the listing page: its candidate cards, or a
non-success status, or a thrown network or timeout error. -/
inductive SearchFetch where
  | ok (cards : List (Option CardFields))
  | badStatus (code : Nat) (text : String)
  | netError (msg : String)
deriving DecidableEq

/-- One job as it appears in the search response (src/server.js lines
217-225): the cached record without jobId and jobUrl. -/
structure SummaryJob where
  jobNumber : Nat
  title : String
  company : String
  location : String
  salary : String
  recency : String
  description : String
deriving DecidableEq

/-- Projection of a cached job to its response form. -/
def toSummary (j : Job) : SummaryJob :=
  ⟨j.jobNumber, j.title, j.company, j.location, j.salary, j.recency,
    j.description⟩

/-- The two responses of searchJobs: the success response, or the failure
response carrying the error message and the fixed details string
(src/server.js lines 231-245). -/
inductive SearchResult where
  | success (searchId query location : String) (radius : Int)
      (totalResults : Nat) (jobs : List SummaryJob)
  | failure (error : String) (details : String)
deriving DecidableEq

/-- searchJobs (src/server.js lines 132-246): build the URL, fetch it,
extract up to `limit` jobs, cache and index them (evicting when over 10
sessions), and answer; a bad status becomes the thrown message of line
148 and, like a network error, is answered by the catch branch, which
leaves the store untouched.  `searchId` stands for the
`Date.now().toString()` timestamp. -/
def searchJobs (st : StoreState) (query location : String) (radius : Int)
    (recency : String) (limit : Nat) (searchId : String)
    (world : String → SearchFetch) : SearchResult × StoreState :=
  let url := buildSearchUrl query location radius recency
  match world url with
  | .ok cards =>
      let jobs := extractJobs cards limit
      let st' := cacheJobs st searchId jobs
      (.success searchId query location radius jobs.length (jobs.map toSummary),
        st')
  | .badStatus c t =>
      (.failure ("Failed to fetch jobs: " ++ toString c ++ " " ++ t)
        "Failed to search Monster.com jobs", st)
  | .netError m =>
      (.failure m "Failed to search Monster.com jobs", st)

/-- Kernel-evaluable substring scan, used to state that a failure value
does or does not include a given URL. -/
def strContainsAux (pat : List Char) : List Char → Bool
  | [] => charsStartWith [] pat
  | c :: rest => charsStartWith (c :: rest) pat || strContainsAux pat rest

/-- Whether `pat` occurs as a substring of `s`. -/
def strContains (s pat : String) : Bool :=
  strContainsAux pat.data s.data

/-- The URL carried inside a detail response, when it carries one: the
failure response carries `jobInfo.url`, the success response carries
`url`, the other two responses carry none. -/
def resultUrl : DetailResult → Option String
  | .failure _ _ ji => some ji.url
  | .success _ _ u _ => some u
  | _ => none

/-- Whether a detail response is the typed not-found response. -/
def isNotFound : DetailResult → Bool
  | .notFound _ => true
  | _ => false

/-- No jobId-index key is the empty string.  The caching step only ever
indexes truthy jobIds, so every store the server can reach from its empty
start satisfies this. -/
def NoEmptyIdKey (st : StoreState) : Prop :=
  ∀ p ∈ st.jobIdIndex, p.1 ≠ ""

/-- A concrete listing card whose job-id comes from the explicit
`data-job-id` attribute. -/
def cardA (k : Nat) : CardFields :=
  { titleText := some ("T" ++ toString k), href := some "https://x",
    dataJobId := some ("id" ++ toString k), company := some "C",
    location := some "L", recency := some "today", salary := none }

/-- The store after eleven searches, each caching the single job extracted
from one `cardA` card — the 11-sessions-into-a-10-bounded-store scenario. -/
def st11 : StoreState :=
  (List.range 11).foldl
    (fun st k =>
      cacheJobs st ("s" ++ toString k) (extractJobs [some (cardA k)] 10))
    emptyStore

/-- The store after a single search that cached one job. -/
def st1 : StoreState :=
  cacheJobs emptyStore "s0" (extractJobs [some (cardA 0)] 10)

/-! Theorems -/

/-- Claim C1 (code bug): contrary to the stated invariant, eviction does
not remove a session's index entries.  After inserting eleven
single-job sessions into the 10-bounded store, the first session is gone
from the cache and none of its jobs survive in any retained session, yet
its external-id index entry "id0" is still reachable; moreover the
sequence-number index holds a single key, so the latest ten sessions are
not fully indexed either. -/
theorem c1_eviction_leaves_stale_index_entries :
    st11.jobCache.map (fun p => p.1) =
      ["s1", "s2", "s3", "s4", "s5", "s6", "s7", "s8", "s9", "s10"] ∧
    st11.jobCache.all (fun s => s.2.all (fun j => j.jobId ≠ "id0")) = true ∧
    (mapGet st11.jobIdIndex "id0").isSome = true ∧
    st11.jobIndex.length = 1 := by decide

/-- Claim C8: for every cached job reference and every fetch outcome
(success, fetch failure, missing container), getJobDetails leaves the
result store — session cache and both indices — exactly as it found it. -/
theorem c8_getJobDetails_preserves_store (st : StoreState) (jn : Option Nat)
    (jid : Option String) (world : String → FetchOutcome) :
    (getJobDetails st jn jid world).2 = st := by
  unfold getJobDetails
  split
  · rfl
  · split
    · split <;> rfl
    · rfl
    · rfl

/-- Claim C9: the built URL carries a recency parameter exactly when the
recency differs from the default last_week; with the default recency the
query of the produced URL consists of exactly the q, where, page, rd and
fixed sort components — for jobTitle "hr admin", location "winnetka",
radius 5 these are q=hr+admin, where=winnetka, page=1, rd=5, so=m.h.sh,
with no recency component. -/
theorem c9_recency_param_iff_nondefault (q l : String) (rad : Int)
    (r : Recency) :
    ((buildSearchUrlParams q l rad (recencyStr r)).any
        (fun p => decide (p.1 = "recency")) = true ↔ r ≠ Recency.last_week) ∧
    urlQueryComponents
        (buildSearchUrl "hr admin" "winnetka" 5 (recencyStr Recency.last_week)) =
      ["q=hr+admin", "where=winnetka", "page=1", "rd=5", "so=m.h.sh"] := by
  refine ⟨?_, by decide⟩
  cases r <;> simp [buildSearchUrlParams, recencyStr]

/-- Counterexample to claim C5: buildSearchUrl does not clamp the radius;
radius 100 reaches the URL verbatim as rd=100, outside the claimed range
1-50. -/
theorem c5_radius_not_clamped_cex :
    urlQueryComponents (buildSearchUrl "a" "b" 100 "last+week") =
      ["q=a", "where=b", "page=1", "rd=100", "so=m.h.sh"] ∧
    ¬((100 : Int) ≤ 50) := by decide

/-- Claim C5, amended: buildSearchUrl performs no clamping at all — the rd
parameter always carries the input radiusMiles verbatim, for every input
value. -/
theorem c5_rd_encodes_radius_verbatim (q l : String) (rad : Int)
    (rec : String) :
    ("rd", toString rad) ∈ buildSearchUrlParams q l rad rec := by
  unfold buildSearchUrlParams
  split <;> simp

/-- Counterexample to claim C3: when the fetched detail page lacks the
container, getJobDetails answers with the bare error object of
src/server.js line 298 — a response that carries no title, company,
sequence number or source URL, so this failure branch does not return the
already-known summary fields. -/
theorem c3_container_branch_drops_summary_cex :
    (getJobDetails st1 (some 1) none (fun _ => .ok ⟨none⟩)).1 =
      .rawError "Job details container not found" := by decide

/-- Claim C3, amended: in the catch branch — thrown network or timeout
error, or a non-success HTTP status — the detail failure carries the
failure reason together with the target job's known summary fields
(jobNumber, title, company, url); the container-not-found branch instead
returns only the bare error string. -/
theorem c3_detail_failure_carries_summary (st : StoreState) (jn : Option Nat)
    (jid : Option String) (world : String → FetchOutcome) (job : Job)
    (h : lookupTarget st jn jid = some job) :
    (∀ m, world job.jobUrl = .netError m →
      (getJobDetails st jn jid world).1 =
        .failure m "Failed to retrieve job details"
          ⟨job.jobNumber, job.title, job.company, job.jobUrl⟩) ∧
    (∀ c t, world job.jobUrl = .badStatus c t →
      (getJobDetails st jn jid world).1 =
        .failure ("Failed to fetch job details: " ++ toString c ++ " " ++ t)
          "Failed to retrieve job details"
          ⟨job.jobNumber, job.title, job.company, job.jobUrl⟩) ∧
    (∀ page, world job.jobUrl = .ok page → page.container = none →
      (getJobDetails st jn jid world).1 =
        .rawError "Job details container not found") := by
  refine ⟨?_, ?_, ?_⟩
  · intro m hm
    simp [getJobDetails, h, hm]
  · intro c t hct
    simp [getJobDetails, h, hct]
  · intro page hp hc
    simp [getJobDetails, h, hp, hc]

/-- Witness for the amended claim C3 at a concrete input. -/
theorem c3_detail_failure_carries_summary_witness :
    (getJobDetails st1 (some 1) none (fun _ => .netError "boom")).1 =
      .failure "boom" "Failed to retrieve job details"
        ⟨(parseCard (cardA 0) 0).jobNumber, (parseCard (cardA 0) 0).title,
          (parseCard (cardA 0) 0).company, (parseCard (cardA 0) 0).jobUrl⟩ :=
  (c3_detail_failure_carries_summary st1 (some 1) none
      (fun _ => .netError "boom") (parseCard (cardA 0) 0) (by decide)).1
    "boom" rfl

/-- Counterexample to claim C4: a non-success HTTP status during the
listing search is answered with a failure value made of the thrown
message and a fixed details string, and the attempted search URL appears
in neither. -/
theorem c4_search_failure_omits_url_cex :
    (searchJobs emptyStore "a" "b" 1 "last+week" 10 "s1"
        (fun _ => .badStatus 404 "Not Found")).1 =
      .failure "Failed to fetch jobs: 404 Not Found"
        "Failed to search Monster.com jobs" ∧
    strContains "Failed to fetch jobs: 404 Not Found"
      (buildSearchUrl "a" "b" 1 "last+week") = false ∧
    strContains "Failed to search Monster.com jobs"
      (buildSearchUrl "a" "b" 1 "last+week") = false := by decide

/-- Claim C4, amended: only detail-fetch failures include the attempted
URL — the failure response of getJobDetails carries the target job's
jobUrl for every thrown error and every non-success status — while a
listing-search failure carries only the error message and the fixed
details string, with no URL field. -/
theorem c4_detail_failure_carries_attempted_url (st : StoreState)
    (jn : Option Nat) (jid : Option String) (world : String → FetchOutcome)
    (job : Job) (st' : StoreState) (q l : String) (rad : Int) (rec : String)
    (lim : Nat) (sid : String) (w : String → SearchFetch)
    (h : lookupTarget st jn jid = some job) :
    (∀ m, world job.jobUrl = .netError m →
      resultUrl (getJobDetails st jn jid world).1 = some job.jobUrl) ∧
    (∀ c t, world job.jobUrl = .badStatus c t →
      resultUrl (getJobDetails st jn jid world).1 = some job.jobUrl) ∧
    (∀ m, w (buildSearchUrl q l rad rec) = .netError m →
      (searchJobs st' q l rad rec lim sid w).1 =
        .failure m "Failed to search Monster.com jobs") ∧
    (∀ c t, w (buildSearchUrl q l rad rec) = .badStatus c t →
      (searchJobs st' q l rad rec lim sid w).1 =
        .failure ("Failed to fetch jobs: " ++ toString c ++ " " ++ t)
          "Failed to search Monster.com jobs") := by
  refine ⟨?_, ?_, ?_, ?_⟩
  · intro m hm
    simp [getJobDetails, h, hm, resultUrl]
  · intro c t hct
    simp [getJobDetails, h, hct, resultUrl]
  · intro m hm
    simp [searchJobs, hm]
  · intro c t hct
    simp [searchJobs, hct]

/-- Witness for the amended claim C4 at a concrete input. -/
theorem c4_detail_failure_carries_attempted_url_witness :
    resultUrl (getJobDetails st1 (some 1) none
        (fun _ => .badStatus 500 "Server Error")).1 =
      some (parseCard (cardA 0) 0).jobUrl :=
  (c4_detail_failure_carries_attempted_url st1 (some 1) none
      (fun _ => .badStatus 500 "Server Error") (parseCard (cardA 0) 0)
      emptyStore "a" "b" 1 "last+week" 10 "s1"
      (fun _ => .netError "x") (by decide)).2.1
    500 "Server Error" rfl

/-- Counterexample to claim C7: in the eleven-session store, the external
id "id0" belongs to no retained session, yet the detail operation does not
return the not-found outcome for it — the stale index entry routes the
call into a detail fetch instead. -/
theorem c7_stale_id_bypasses_notfound_cex :
    st11.jobCache.all (fun s => s.2.all (fun j => j.jobId ≠ "id0")) = true ∧
    isNotFound
      (getJobDetails st11 none (some "id0") (fun _ => .netError "down")).1 =
      false := by decide

/-- Claim C7, amended: for every reference on which the dispatch finds no
target — both index lookups miss — the detail operation returns the typed
not-found outcome listing the currently cached jobs with their jobNumber,
title and company; in particular a sequence-number 999 request on the
empty store returns not-found listing zero available jobs. -/
theorem c7_index_miss_yields_notfound (st : StoreState) (jn : Option Nat)
    (jid : Option String) (world : String → FetchOutcome)
    (h : lookupTarget st jn jid = none) :
    (getJobDetails st jn jid world).1 = .notFound (availableJobs st) ∧
    (getJobDetails emptyStore (some 999) none world).1 = .notFound [] := by
  constructor
  · simp [getJobDetails, h]
  · rfl

/-- Witness for the amended claim C7 at a concrete input. -/
theorem c7_index_miss_yields_notfound_witness :
    (getJobDetails st1 (some 999) none (fun _ => .netError "x")).1 =
      .notFound (availableJobs st1) ∧
    (getJobDetails emptyStore (some 999) none (fun _ => .netError "x")).1 =
      .notFound [] :=
  c7_index_miss_yields_notfound st1 (some 999) none (fun _ => .netError "x")
    (by decide)

/-- Every member of a map after a `mapSet` either carries the set key or
was already present. -/
theorem mem_mapSet {β : Type} (m : List (String × β)) (k : String) (v : β)
    (p : String × β) (hp : p ∈ mapSet m k v) : p.1 = k ∨ p ∈ m := by
  unfold mapSet at hp
  split at hp
  · obtain ⟨q, hq, hpq⟩ := List.mem_map.mp hp
    by_cases hqk : q.1 = k
    · left
      simp [hqk] at hpq
      simp [← hpq]
    · right
      simp [hqk] at hpq
      exact hpq ▸ hq
  · rcases List.mem_append.mp hp with hm | hm
    · exact Or.inr hm
    · left
      simp at hm
      simp [hm]

/-- The empty store has no empty jobId-index key. -/
theorem noEmptyIdKey_emptyStore : NoEmptyIdKey emptyStore := by
  intro p hp
  simp [emptyStore] at hp

/-- The caching step never indexes an empty jobId, so it preserves the
no-empty-key invariant of the jobId index. -/
theorem noEmptyIdKey_cacheJobs (st : StoreState) (sid : String)
    (jobs : List Job) (h : NoEmptyIdKey st) :
    NoEmptyIdKey (cacheJobs st sid jobs) := by
  have key : ∀ (js : List Job) (m : List (String × Job)),
      (∀ p ∈ m, p.1 ≠ "") →
      ∀ p ∈ js.foldl
        (fun m j => if j.jobId ≠ "" then mapSet m j.jobId j else m) m,
        p.1 ≠ "" := by
    intro js
    induction js with
    | nil => intro m hm p hp; exact hm p hp
    | cons j rest ih =>
      intro m hm p hp
      refine ih _ ?_ p hp
      intro q hq
      by_cases hj : j.jobId = ""
      · simp [hj] at hq
        exact hm q hq
      · simp [hj] at hq
        rcases mem_mapSet _ _ _ _ hq with h1 | h1
        · rw [h1]; exact hj
        · exact hm q h1
  intro p hp
  exact key jobs st.jobIdIndex h p hp

/-- Claim C10: a truthy (non-zero) job_number resolves through the
sequence index alone — the response does not depend on job_id at all —
while job_number 0 is falsy, so the sequence lookup is skipped: the call
resolves purely through the jobId index (for stores whose jobId index has
no empty key, which the caching step guarantees), and with no job_id the
call answers not-found. -/
theorem c10_job_number_precedence (st : StoreState) (hs : NoEmptyIdKey st)
    (n : Nat) (hn : n ≠ 0) (jid jid' : Option String) (s : String)
    (world : String → FetchOutcome) :
    lookupTarget st (some n) jid = mapGetN st.jobIndex n ∧
    getJobDetails st (some n) jid world = getJobDetails st (some n) jid' world ∧
    lookupTarget st (some 0) (some s) = mapGet st.jobIdIndex s ∧
    (getJobDetails st (some 0) none world).1 = .notFound (availableJobs st) := by
  refine ⟨by simp [lookupTarget, hn], ?_, ?_, ?_⟩
  · unfold getJobDetails
    simp [lookupTarget, hn]
  · by_cases hse : s = ""
    · subst hse
      have : mapGet st.jobIdIndex "" = none := by
        unfold mapGet
        rw [List.find?_eq_none.mpr]
        · rfl
        · intro p hp
          simpa using hs p hp
      simp [lookupTarget, lookupById, this]
    · simp [lookupTarget, lookupById, hse]
  · simp [getJobDetails, lookupTarget, lookupById]

/-- Witness for claim C10 at a concrete input. -/
theorem c10_job_number_precedence_witness :
    lookupTarget st1 (some 1) (some "zz") = mapGetN st1.jobIndex 1 ∧
    getJobDetails st1 (some 1) (some "zz") (fun _ => .netError "x") =
      getJobDetails st1 (some 1) none (fun _ => .netError "x") ∧
    lookupTarget st1 (some 0) (some "id0") = mapGet st1.jobIdIndex "id0" ∧
    (getJobDetails st1 (some 0) none (fun _ => .netError "x")).1 =
      .notFound (availableJobs st1) :=
  c10_job_number_precedence st1 (by unfold NoEmptyIdKey; decide) 1 (by decide)
    (some "zz") none
    "id0" (fun _ => .netError "x")

/-- The card loop yields at most one record per candidate card. -/
theorem extractGo_length_le (l : List (Option CardFields)) (i : Nat) :
    (extractGo l i).length ≤ l.length := by
  induction l generalizing i with
  | nil => simp [extractGo]
  | cons x rest ih =>
    cases x with
    | none =>
      simp only [extractGo, List.length_cons]
      exact Nat.le_succ_of_le (ih (i + 1))
    | some c =>
      simp only [extractGo, List.length_cons]
      exact Nat.succ_le_succ (ih (i + 1))

/-- Every record the card loop yields carries a jobNumber strictly between
the starting index and the index past the last candidate card. -/
theorem extractGo_jobNumber_bounds (l : List (Option CardFields)) (i : Nat)
    (job : Job) (h : job ∈ extractGo l i) :
    i + 1 ≤ job.jobNumber ∧ job.jobNumber ≤ i + l.length := by
  induction l generalizing i with
  | nil => simp [extractGo] at h
  | cons x rest ih =>
    cases x with
    | none =>
      simp only [extractGo] at h
      obtain ⟨h1, h2⟩ := ih (i + 1) h
      constructor
      · omega
      · simp only [List.length_cons]
        omega
    | some c =>
      simp only [extractGo] at h
      rcases List.mem_cons.mp h with hj | hj
      · subst hj
        constructor
        · exact Nat.le_refl _
        · simp [parseCard, List.length_cons]
      · obtain ⟨h1, h2⟩ := ih (i + 1) hj
        constructor
        · omega
        · simp only [List.length_cons]
          omega

/-- Making the card at position `j` fail removes exactly the record with
jobNumber `i + j + 1` from the loop's output and leaves every other record
unchanged. -/
theorem extractGo_set_none (l : List (Option CardFields)) (j : Nat)
    (c : CardFields) (i : Nat) (h : l[j]? = some (some c)) :
    extractGo (l.set j none) i =
      (extractGo l i).filter (fun job => decide (job.jobNumber ≠ i + j + 1)) := by
  induction l generalizing i j with
  | nil => simp at h
  | cons x rest ih =>
    cases j with
    | zero =>
      simp at h
      subst h
      simp only [List.set_cons_zero, extractGo, List.filter_cons]
      have hpc : (parseCard c i).jobNumber = i + 1 := rfl
      have hfalse : (decide ((parseCard c i).jobNumber ≠ i + 0 + 1)) = false := by
        simp [hpc]
      rw [hfalse]
      symm
      apply List.filter_eq_self.mpr
      intro job hj
      have := (extractGo_jobNumber_bounds rest (i + 1) job hj).1
      simp only [decide_eq_true_eq]
      omega
    | succ k =>
      simp at h
      have harith : i + 1 + k + 1 = i + (k + 1) + 1 := by omega
      cases x with
      | none =>
        simp only [List.set_cons_succ, extractGo]
        rw [ih k (i + 1) h, harith]
      | some c' =>
        simp only [List.set_cons_succ, extractGo, List.filter_cons]
        have hpc : (parseCard c' i).jobNumber = i + 1 := rfl
        have htrue : (decide ((parseCard c' i).jobNumber ≠ i + (k + 1) + 1)) = true := by
          simp [hpc]
        rw [htrue, ih k (i + 1) h, harith]
        simp

/-- Making the card at position `j` fail shortens the loop's output by
exactly one record. -/
theorem extractGo_set_none_length (l : List (Option CardFields)) (j : Nat)
    (c : CardFields) (i : Nat) (h : l[j]? = some (some c)) :
    (extractGo l i).length = (extractGo (l.set j none) i).length + 1 := by
  induction l generalizing i j with
  | nil => simp at h
  | cons x rest ih =>
    cases j with
    | zero =>
      simp at h
      subst h
      simp [extractGo]
    | succ k =>
      simp at h
      cases x with
      | none =>
        simp only [List.set_cons_succ, extractGo]
        exact ih k (i + 1) h
      | some c' =>
        simp only [List.set_cons_succ, extractGo, List.length_cons]
        rw [ih k (i + 1) h]

/-- Claim C2: extraction returns at most `limit` records; a single failing
card (position `j` turned into a throwing card) removes exactly its own
record from the output — every other card's record survives unchanged —
and so reduces the returned count by at most one. -/
theorem c2_extract_limit_and_card_isolation
    (cards : List (Option CardFields)) (limit j : Nat) (c : CardFields)
    (h : cards[j]? = some (some c)) :
    (extractJobs cards limit).length ≤ limit ∧
    extractJobs (cards.set j none) limit =
      (extractJobs cards limit).filter
        (fun job => decide (job.jobNumber ≠ j + 1)) ∧
    (extractJobs cards limit).length ≤
      (extractJobs (cards.set j none) limit).length + 1 := by
  have hone : (extractJobs cards limit).length ≤ limit :=
    Nat.le_trans (extractGo_length_le _ 0) (List.length_take_le limit cards)
  refine ⟨hone, ?_, ?_⟩
  · unfold extractJobs
    rw [List.set_take]
    by_cases hj : j < limit
    · have htake : (cards.take limit)[j]? = some (some c) := by
        rw [List.getElem?_take]
        simp [hj, h]
      have := extractGo_set_none (cards.take limit) j c 0 htake
      simpa using this
    · have hlen : (cards.take limit).length ≤ j :=
        Nat.le_trans (List.length_take_le limit cards) (Nat.le_of_not_lt hj)
      rw [List.set_eq_of_length_le hlen]
      symm
      apply List.filter_eq_self.mpr
      intro job hjob
      have := (extractGo_jobNumber_bounds (cards.take limit) 0 job hjob).2
      simp only [decide_eq_true_eq]
      omega
  · unfold extractJobs
    rw [List.set_take]
    by_cases hj : j < limit
    · have htake : (cards.take limit)[j]? = some (some c) := by
        rw [List.getElem?_take]
        simp [hj, h]
      exact Nat.le_of_eq (extractGo_set_none_length (cards.take limit) j c 0 htake)
    · have hlen : (cards.take limit).length ≤ j :=
        Nat.le_trans (List.length_take_le limit cards) (Nat.le_of_not_lt hj)
      rw [List.set_eq_of_length_le hlen]
      omega

/-- Witness for claim C2 at a concrete input: three parseable cards, the
middle one made to fail, limit two. -/
theorem c2_extract_limit_and_card_isolation_witness :
    (extractJobs [some (cardA 0), some (cardA 1), some (cardA 2)] 2).length ≤ 2 ∧
    extractJobs ([some (cardA 0), some (cardA 1), some (cardA 2)].set 1 none) 2 =
      (extractJobs [some (cardA 0), some (cardA 1), some (cardA 2)] 2).filter
        (fun job => decide (job.jobNumber ≠ 1 + 1)) ∧
    (extractJobs [some (cardA 0), some (cardA 1), some (cardA 2)] 2).length ≤
      (extractJobs ([some (cardA 0), some (cardA 1), some (cardA 2)].set 1 none)
          2).length + 1 :=
  c2_extract_limit_and_card_isolation
    [some (cardA 0), some (cardA 1), some (cardA 2)] 2 1 (cardA 1) (by decide)

/-- Counterexample to claim C6: with a failing middle card the returned
sequence numbers are 1 and 3 — the second returned record does not carry
its 1-based position 2, so the numbers are not the gap-free 1..k. -/
theorem c6_skipped_card_gap_cex :
    (extractJobs [some (cardA 0), none, some (cardA 2)] 10).map
        (fun j => j.jobNumber) = [1, 3] ∧
    ¬((extractJobs [some (cardA 0), none, some (cardA 2)] 10).map
        (fun j => j.jobNumber) = [1, 2]) := by decide

/-- When every candidate card parses, the loop numbers its output
consecutively from the starting index. -/
theorem extractGo_all_some (l : List (Option CardFields)) (i : Nat)
    (h : ∀ x ∈ l, x.isSome = true) :
    (extractGo l i).map (fun j => j.jobNumber) = List.range' (i + 1) l.length := by
  induction l generalizing i with
  | nil => simp [extractGo]
  | cons x rest ih =>
    cases x with
    | none =>
      have := h none (List.mem_cons_self _ _)
      simp at this
    | some c =>
      simp only [extractGo, List.map_cons, List.length_cons]
      have hpc : (parseCard c i).jobNumber = i + 1 := rfl
      rw [hpc, ih (i + 1) (fun x hx => h x (List.mem_cons_of_mem _ hx))]
      rfl

/-- Claim C6, amended: sequenceNumber is one plus the card's index among
the candidate cards, so when no candidate card within the limit fails the
returned sequence numbers are exactly 1..k for the k returned records;
a skipped card leaves a gap instead. -/
theorem c6_sequence_numbers_without_skips (cards : List (Option CardFields))
    (limit : Nat) (h : ∀ x ∈ cards.take limit, x.isSome = true) :
    (extractJobs cards limit).map (fun j => j.jobNumber) =
      List.range' 1 ((extractJobs cards limit).length) := by
  unfold extractJobs
  have hm := extractGo_all_some (cards.take limit) 0 h
  have hlen : (extractGo (cards.take limit) 0).length = (cards.take limit).length := by
    have := congrArg List.length hm
    simpa using this
  rw [hm, hlen]

/-- Witness for the amended claim C6 at a concrete input. -/
theorem c6_sequence_numbers_without_skips_witness :
    (extractJobs [some (cardA 0), some (cardA 1)] 5).map (fun j => j.jobNumber) =
      List.range' 1 ((extractJobs [some (cardA 0), some (cardA 1)] 5).length) :=
  c6_sequence_numbers_without_skips [some (cardA 0), some (cardA 1)] 5
    (by decide)

end MonsterJobs
